import Mathlib

/-!
Shallow embedding of the LinkPlay device-integration core
(src/music_assistant/providers/linkplay/): the device prober, subnet
scanner, discovery loop, player command channel and player state poller,
together with proofs of the specified properties.

HTTP I/O is modelled by an explicit outcome type (`HttpResult`); the
behaviour of Python `json.loads` on a body is abstracted by a parse
oracle `String → Option StatusDict` (`none` models a raised
`JSONDecodeError`; a `some` result models a successfully parsed JSON
object).  Wall-clock times (`time.time()`) are rationals.
-/

namespace LinkPlay

/-- A Python value as it appears in a parsed LinkPlay JSON dict.
Python `bool` is a subclass of `int`, so booleans are folded into
`int`; floats, lists, nested dicts and `None` are `other` (the source
only ever branches on `isinstance(v, (int, str))`). -/
inductive PyVal
  | str (s : String)
  | int (n : Int)
  | other
deriving DecidableEq, Repr

/-- A parsed JSON object: a Python dict from string keys to values,
as returned by `json.loads` in the source. -/
abbrev StatusDict := List (String × PyVal)

/-- Python `d.get(k, default)`. -/
def StatusDict.get (d : StatusDict) (k : String) (dflt : PyVal) : PyVal :=
  match List.find? (fun p => p.1 == k) d with
  | some p => p.2
  | none => dflt

/-- Python dict truthiness: `if d:` is false exactly for the empty dict. -/
def StatusDict.isEmpty (d : StatusDict) : Bool := List.isEmpty d

/-- Python `str(v)` for the values a LinkPlay status dict holds; used where the
source interpolates a dict value into an f-string. -/
def PyVal.pyStr : PyVal → String
  | .str s => s
  | .int n => toString n
  | .other => "<object>"

/-- Python `int(v)` on an `int` or `str` argument: identity on ints,
best-effort decimal parse (optional sign) on strings, `none` models a
raised `ValueError`. -/
def pyIntOf : PyVal → Option Int
  | .int n => some n
  | .str s =>
      let core := fun (t : String) =>
        if t.length > 0 ∧ t.all Char.isDigit then some (t.toNat!) else none
      if s.startsWith "-" then (core (s.drop 1)).map (fun n => -(n : Int))
      else if s.startsWith "+" then (core (s.drop 1)).map (fun n => (n : Int))
      else (core s).map (fun n => (n : Int))
  | .other => none

/-- Outcome of one HTTP GET against a device, as distinguished by the
source (`aiohttp.ClientError` / timeout versus a completed response
with a status code and a body). -/
inductive HttpResult
  | timeout
  | connError
  | response (status : Nat) (body : String)
deriving DecidableEq, Repr

/-- Model of `LinkPlayPlayer._send_command` (player.py 198-225): on HTTP 200 try
`json.loads`; on a `JSONDecodeError` wrap the raw text as
`{"response": text}`; on a non-200 status, a timeout or a client error
return `None`. -/
def sendCommand (parseJson : String → Option StatusDict) (r : HttpResult) :
    Option StatusDict :=
  match r with
  | .timeout => none
  | .connError => none
  | .response code body =>
      if code = 200 then
        match parseJson body with
        | some d => some d
        | none => some [("response", .str body)]
      else none

/-- The device-identity record the prober extracts from a `getStatusEx`
response (provider.py 143-148). -/
structure LPDeviceInfo where
  uuid : PyVal
  name : PyVal
  model : PyVal
  firmware : PyVal
deriving DecidableEq, Repr

/-- Model of `LinkPlayProvider._check_linkplay_device` (provider.py 130-156):
probe one address; HTTP 200 with a JSON body yields the extracted
identity fields (with the documented fallbacks), every other outcome —
timeout, client error, non-200 status, unparseable body — is caught
and yields `None`. -/
def checkLinkplayDevice (parseJson : String → Option StatusDict)
    (ip : String) (r : HttpResult) : Option LPDeviceInfo :=
  match r with
  | .timeout => none
  | .connError => none
  | .response code body =>
      if code = 200 then
        match parseJson body with
        | none => none
        | some data =>
            some { uuid := data.get "uuid" (.str (ip.replace "." "_"))
                   name := data.get "DeviceName" (.str ("LinkPlay " ++ ip))
                   model := data.get "hardware" (.str "Unknown")
                   firmware := data.get "firmware" (.str "Unknown") }
      else none

/-- Model of `LinkPlayProvider._scan_network`, aggregation part (provider.py
109-128): probe every candidate address (the probes themselves are
total, so `return_exceptions=True` never sees an exception from them)
and record a dict entry for each address whose probe answered
positively; a `None` probe result is simply skipped.  Batching in
groups of 50 only bounds concurrency and does not change the
aggregate, so the fold is over the flat candidate list paired with
each probe outcome. -/
def scanNetwork (parseJson : String → Option StatusDict)
    (probes : List (String × HttpResult)) : List (String × LPDeviceInfo) :=
  probes.foldl
    (fun acc p =>
      match checkLinkplayDevice parseJson p.1 p.2 with
      | some info => acc ++ [(p.1, info)]
      | none => acc)
    []

/-- The probe outcomes the spec calls failures: timeout, connection
error, non-200 HTTP status, or a 200 whose body does not parse. -/
def probeFailure (parseJson : String → Option StatusDict) (r : HttpResult) :
    Prop :=
  r = .timeout ∨ r = .connError ∨
    (∃ c b, r = .response c b ∧ c ≠ 200) ∨
    (∃ b, r = .response 200 b ∧ parseJson b = none)

/-- Playback state enum (`music_assistant_models.enums.PlaybackState`,
the three values the LinkPlay player uses). -/
inductive PlaybackState
  | IDLE
  | PLAYING
  | PAUSED
deriving DecidableEq, Repr

/-- The runtime snapshot a `LinkPlayPlayer` keeps in its `_attr_*`
fields plus the two private helpers `_last_status` and
`_play_start_time` (player.py 36-64).  `current_media` holds the URI
of the `PlayerMedia` last handed to `play_media`. -/
structure PlayerState where
  ip_address : String
  playback_state : PlaybackState
  available : Bool
  volume_level : Int
  volume_muted : Bool
  current_media : Option String
  last_status : StatusDict
  play_start_time : ℚ
deriving DecidableEq, Repr

/-- Section of `_update_from_status` for the playback state section (player.py 238-254):
map `"play"`/`"pause"` directly; any other reported status is a
tentative idle, suppressed when issued within 15 seconds of the last
play command while the recorded state is Playing. -/
def applyPlayStatus (now : ℚ) (st1 : PlayerState) (play_status : PyVal) :
    PlayerState :=
  if play_status = .str "play" then
    { st1 with playback_state := .PLAYING }
  else if play_status = .str "pause" then
    { st1 with playback_state := .PAUSED }
  else
    let time_since_play := now - st1.play_start_time
    if time_since_play < 15 ∧ st1.playback_state = .PLAYING then st1
    else { st1 with playback_state := .IDLE }

/-- Section of `_update_from_status` for the volume (player.py 256-262):
`isinstance(volume, (int, str))` guards, a `ValueError` from `int()`
is caught and the previous value retained. -/
def applyVolume (st2 : PlayerState) (vol : PyVal) : PlayerState :=
  match vol with
  | .other => st2
  | v =>
      match pyIntOf v with
      | some n => { st2 with volume_level := n }
      | none => st2

/-- Section of `_update_from_status` for the mute flag (player.py 264-266):
`bool(int(mute)) if isinstance(mute, (int, str)) else False`.  A
non-numeric string makes `int()` raise a `ValueError` that is not
caught here; the boolean flag records that raise. -/
def applyMute (st3 : PlayerState) (mute : PyVal) : PlayerState × Bool :=
  match mute with
  | .other => ({ st3 with volume_muted := false }, false)
  | m =>
      match pyIntOf m with
      | some n => ({ st3 with volume_muted := n ≠ 0 }, false)
      | none => (st3, true)

/-- Model of `LinkPlayPlayer._update_from_status` (player.py 231-269).  Returns
the updated state together with a flag that is `true` when the Python
body raises (the only raise site is `int(mute)` on a non-numeric
string, which escapes the method after the earlier field writes have
already been applied in place).  `now` is the value of `time.time()`
at the tick. -/
def updateFromStatus (now : ℚ) (st : PlayerState) (status : StatusDict) :
    PlayerState × Bool :=
  let st1 := { st with last_status := status, available := true }
  let st2 := applyPlayStatus now st1 (status.get "status" (.str "stop"))
  let st3 := applyVolume st2 (status.get "vol" (.int 0))
  applyMute st3 (status.get "mute" (.int 0))

/-- Model of `LinkPlayPlayer.poll` (player.py 162-196).  Inputs are the HTTP
outcomes of the two sends it performs: `r1` for the `getStatusEx`
availability check, `r2` for the `getPlayerStatus` status fetch.
Python truthiness governs both branches (`if not device_status`,
`if status`), so an empty dict counts as absent.  The `except` clause
catches a raise out of `_update_from_status` and marks the player
unavailable on the partially updated state. -/
def poll (parseJson : String → Option StatusDict) (now : ℚ)
    (st : PlayerState) (r1 r2 : HttpResult) : PlayerState :=
  let deviceStatus := sendCommand parseJson r1
  match deviceStatus with
  | none => { st with available := false }
  | some d =>
      if d.isEmpty then { st with available := false }
      else
        let st1 := { st with available := true }
        match sendCommand parseJson r2 with
        | some s =>
            if s.isEmpty then { st1 with playback_state := .IDLE }
            else
              match updateFromStatus now st1 s with
              | (st2, true) => { st2 with available := false }
              | (st2, false) => st2
        | none => { st1 with playback_state := .IDLE }

/-- Model of `LinkPlayPlayer.volume_set` (player.py 88-92): await the send
(whose result is ignored), then record the commanded volume and
publish.  The send outcome `r` is threaded through to show it cannot
affect the snapshot. -/
def volume_set (parseJson : String → Option StatusDict) (st : PlayerState)
    (r : HttpResult) (volume_level : Int) : PlayerState :=
  let _resp := sendCommand parseJson r
  { st with volume_level := volume_level }

/-- Model of `LinkPlayPlayer.volume_mute` (player.py 94-99). -/
def volume_mute (parseJson : String → Option StatusDict) (st : PlayerState)
    (r : HttpResult) (muted : Bool) : PlayerState :=
  let _resp := sendCommand parseJson r
  { st with volume_muted := muted }

/-- Model of `LinkPlayPlayer.play` (player.py 101-105). -/
def play (parseJson : String → Option StatusDict) (st : PlayerState)
    (r : HttpResult) : PlayerState :=
  let _resp := sendCommand parseJson r
  { st with playback_state := .PLAYING }

/-- Model of `LinkPlayPlayer.pause` (player.py 107-111). -/
def pause (parseJson : String → Option StatusDict) (st : PlayerState)
    (r : HttpResult) : PlayerState :=
  let _resp := sendCommand parseJson r
  { st with playback_state := .PAUSED }

/-- Model of `LinkPlayPlayer.stop` (player.py 113-118). -/
def stop (parseJson : String → Option StatusDict) (st : PlayerState)
    (r : HttpResult) : PlayerState :=
  let _resp := sendCommand parseJson r
  { st with playback_state := .IDLE, current_media := none }

/-- Model of `LinkPlayPlayer.play_media` (player.py 120-160): send stop, switch
to wifi mode, send the play command with the query-suffix workaround,
record `time.time()` as `_play_start_time`, set state Playing and the
current media.  `now` is the `time.time()` value; `r1 r2 r3` are the
outcomes of the three sends (all ignored apart from logging). -/
def play_media (parseJson : String → Option StatusDict) (now : ℚ)
    (st : PlayerState) (uri : String) (r1 r2 r3 : HttpResult) : PlayerState :=
  let _stopResp := sendCommand parseJson r1
  let _modeResp := sendCommand parseJson r2
  let uri2 := if (uri.toList.contains (Char.ofNat 63)) then uri
              else uri ++ "?linkplay=1"
  let _playResp := sendCommand parseJson r3
  let _uriSent := uri2
  { st with play_start_time := now
            playback_state := .PLAYING
            current_media := some uri }

/-- The per-player record the provider registry holds: the fields
`LinkPlayPlayer.__init__` (player.py 27-64) establishes from the
probed `device_info`, plus the mutable `ip_address`. -/
structure LinkPlayPlayerRec where
  player_id : String
  ip_address : String
  name : String
  model : String
  firmware : PyVal
deriving DecidableEq, Repr

/-- Combination of `LinkPlayPlayer.__init__` and `_register_player` (provider.py
198-221): build the record for a newly discovered device.  `_attr_name`
and the `DeviceInfo.model` fall back when the probed dict lacks the
field; the prober always supplies them, and `str` values pass through. -/
def mkPlayerRec (player_id ip : String) (info : LPDeviceInfo) :
    LinkPlayPlayerRec :=
  { player_id := player_id
    ip_address := ip
    name := match info.name with
            | .str s => s
            | v => v.pyStr
    model := match info.model with
             | .str s => s
             | v => v.pyStr
    firmware := info.firmware }

/-- The provider registry `_players`: a Python dict from player id to
player, modelled as an insertion-ordered association list. -/
abbrev Registry := List (String × LinkPlayPlayerRec)

/-- Python `self._players.get(k)` / `k in self._players`. -/
def Registry.lookup (reg : Registry) (k : String) :
    Option LinkPlayPlayerRec :=
  (List.find? (fun p => p.1 == k) reg).map (fun p => p.2)

/-- The keys of the registry, in insertion order. -/
def Registry.keys (reg : Registry) : List String :=
  List.map Prod.fst reg

/-- In-place mutation `player.ip_address = ip_address` of the record
stored under key `k`. -/
def Registry.setIp (reg : Registry) (k ip : String) : Registry :=
  List.map (fun p => if p.1 == k then (p.1, { p.2 with ip_address := ip }) else p)
    reg

/-- One iteration of the reconciliation loop in
`LinkPlayProvider.discover_players` (provider.py 76-94): key the
discovered device by `"linkplay_" + uuid`; if the key is registered,
update the stored address in place when it changed and touch nothing
else; otherwise register a brand-new record. -/
def discoverStep (reg : Registry) (ip : String) (info : LPDeviceInfo) :
    Registry :=
  let player_id := "linkplay_" ++ info.uuid.pyStr
  match reg.lookup player_id with
  | some p =>
      if p.ip_address ≠ ip then reg.setIp player_id ip else reg
  | none => reg ++ [(player_id, mkPlayerRec player_id ip info)]

/-- The full reconciliation loop of `discover_players` over the scan
result (a dict iterated in insertion order). -/
def discoverPlayers (reg : Registry)
    (discovered : List (String × LPDeviceInfo)) : Registry :=
  discovered.foldl (fun r p => discoverStep r p.1 p.2) reg

/-- An IPv4 network as produced by
`ipaddress.ip_network(subnet, strict=False)`: the masked network
address (as a number) and the prefix length. -/
structure IPv4Network where
  netaddr : ℕ
  plen : ℕ
deriving DecidableEq, Repr

/-- Python `network.num_addresses`. -/
def IPv4Network.numAddresses (n : IPv4Network) : ℕ := 2 ^ (32 - n.plen)

/-- Python `network.hosts()` for IPv4, materialised as a list in host order:
all usable addresses — the whole range for /31 and /32, the range
minus network and broadcast addresses otherwise. -/
def IPv4Network.hosts (n : IPv4Network) : List ℕ :=
  if n.plen = 32 then [n.netaddr]
  else if n.plen = 31 then [n.netaddr, n.netaddr + 1]
  else (List.range (n.numAddresses - 2)).map (fun i => n.netaddr + 1 + i)

/-- The host count of a subnet as the spec counts it: the number of
usable host addresses. -/
def IPv4Network.hostCount (n : IPv4Network) : ℕ :=
  if n.plen = 32 then 1
  else if n.plen = 31 then 2
  else n.numAddresses - 2

/-- Model of `LinkPlayProvider._generate_ip_range` on a valid subnet
(provider.py 158-175): expand to the host list, truncated to the first
1024 entries with a logged warning when the subnet holds more than
1024 addresses.  The boolean records whether the truncation warning
was emitted. -/
def generateIpRange (n : IPv4Network) : List ℕ × Bool :=
  if n.numAddresses > 1024 then ((n.hosts).take 1024, true)
  else (n.hosts, false)

/-- Subnet selection in `LinkPlayProvider._scan_network` (provider.py
104-107): `if not subnet or subnet == "192.168.0.0/16"` take the
auto-derived local subnets, else scan exactly the configured one.
`subnet` is the configured value (`none` models Python `None`, the
empty string is falsy too); `localSubnets` is whatever
`_get_local_subnets` would return. -/
def scanSubnets (subnet : Option String) (localSubnets : List String) :
    List String :=
  match subnet with
  | none => localSubnets
  | some s =>
      if s = "" ∨ s = "192.168.0.0/16" then localSubnets else [s]

/-! ## Concrete instances used by witnesses and counterexamples -/

/-- A parse oracle under which no body is valid JSON. -/
def parseNone : String → Option StatusDict := fun _ => none

/-- A parse oracle recognising one fixed `getStatusEx` body. -/
def parseDemo : String → Option StatusDict := fun s =>
  if s = "statusExBody" then some [("uuid", .str "FF31F09E")] else none

/-- The snapshot of a player whose last play command was stamped at
time 100 and that is currently recorded as Playing. -/
def stPlaying : PlayerState :=
  { ip_address := "10.0.0.2"
    playback_state := .PLAYING
    available := true
    volume_level := 30
    volume_muted := false
    current_media := some "http://mass/stream.flac"
    last_status := []
    play_start_time := 100 }

/-- A device record as established at first discovery. -/
def recOld : LinkPlayPlayerRec :=
  { player_id := "linkplay_FF31F09E"
    ip_address := "10.0.0.2"
    name := "Old Name"
    model := "Old Model"
    firmware := .str "4.1" }

/-- A one-device registry. -/
def regOne : Registry := [("linkplay_FF31F09E", recOld)]

/-- The identity of the same device as re-probed later: same UUID,
different address on the wire, refreshed name and model. -/
def infoNew : LPDeviceInfo :=
  { uuid := .str "FF31F09E"
    name := .str "New Name"
    model := .str "New Model"
    firmware := .str "4.2" }

/-! ## Helper lemmas -/

theorem applyVolume_playback_state (st : PlayerState) (v : PyVal) :
    (applyVolume st v).playback_state = st.playback_state := by
  unfold applyVolume
  split
  · rfl
  · split <;> rfl

theorem applyMute_fst_playback_state (st : PlayerState) (m : PyVal) :
    (applyMute st m).1.playback_state = st.playback_state := by
  unfold applyMute
  split
  · rfl
  · split <;> rfl

theorem updateFromStatus_fst_playback_state (now : ℚ) (st : PlayerState)
    (d : StatusDict) :
    (updateFromStatus now st d).1.playback_state =
      (applyPlayStatus now { st with last_status := d, available := true }
        (d.get "status" (.str "stop"))).playback_state := by
  unfold updateFromStatus
  rw [applyMute_fst_playback_state, applyVolume_playback_state]

theorem applyPlayStatus_playback_of_other (now : ℚ) (st1 : PlayerState)
    (ps : PyVal) (h1 : ps ≠ .str "play") (h2 : ps ≠ .str "pause") :
    (applyPlayStatus now st1 ps).playback_state =
      if now - st1.play_start_time < 15 ∧ st1.playback_state = .PLAYING
      then st1.playback_state else .IDLE := by
  unfold applyPlayStatus
  rw [if_neg h1, if_neg h2]
  by_cases h : now - st1.play_start_time < 15 ∧ st1.playback_state = .PLAYING
  · simp [h]
  · simp [h]

theorem Registry.keys_setIp (reg : Registry) (k ip : String) :
    Registry.keys (Registry.setIp reg k ip) = Registry.keys reg := by
  induction reg with
  | nil => rfl
  | cons hd tl ih =>
      unfold Registry.setIp Registry.keys at ih ⊢
      simp only [List.map_cons]
      rw [ih]
      cases h : (hd.1 == k) <;> simp [h]

theorem Registry.lookup_setIp_self (reg : Registry) (k ip : String) :
    Registry.lookup (Registry.setIp reg k ip) k =
      (Registry.lookup reg k).map (fun p => { p with ip_address := ip }) := by
  induction reg with
  | nil => rfl
  | cons hd tl ih =>
      obtain ⟨a, b⟩ := hd
      by_cases h : a = k
      · subst h
        simp [Registry.setIp, Registry.lookup, List.find?]
      · simp only [Registry.setIp, Registry.lookup, List.map_cons,
          List.find?] at ih ⊢
        simp only [show (a == k) = false from beq_eq_false_iff_ne.mpr h,
          if_neg]
        simpa [Registry.setIp, Registry.lookup,
          show (a == k) = false from beq_eq_false_iff_ne.mpr h] using ih

theorem Registry.lookup_eq_none_iff (reg : Registry) (k : String) :
    Registry.lookup reg k = none ↔ k ∉ Registry.keys reg := by
  unfold Registry.lookup Registry.keys
  simp [List.find?_eq_none, List.mem_map]
  aesop

theorem discoverStep_of_found (reg : Registry) (ip : String)
    (info : LPDeviceInfo) (p : LinkPlayPlayerRec)
    (hfound : Registry.lookup reg ("linkplay_" ++ info.uuid.pyStr) = some p) :
    Registry.keys (discoverStep reg ip info) = Registry.keys reg ∧
    Registry.lookup (discoverStep reg ip info) ("linkplay_" ++ info.uuid.pyStr) =
      some { p with ip_address := ip } := by
  simp only [discoverStep]
  rw [hfound]
  by_cases h : p.ip_address = ip
  · have hp : { p with ip_address := ip } = p := by
      cases p
      simp_all
    simp [h, hfound, hp]
  · simp [h, Registry.keys_setIp, Registry.lookup_setIp_self, hfound]

theorem discoverStep_keys_nodup (reg : Registry) (ip : String)
    (info : LPDeviceInfo) (h : (Registry.keys reg).Nodup) :
    (Registry.keys (discoverStep reg ip info)).Nodup := by
  simp only [discoverStep]
  cases hl : Registry.lookup reg ("linkplay_" ++ info.uuid.pyStr) with
  | some p =>
      show (Registry.keys (if p.ip_address ≠ ip
        then Registry.setIp reg ("linkplay_" ++ info.uuid.pyStr) ip
        else reg)).Nodup
      by_cases hip : p.ip_address ≠ ip
      · rw [if_pos hip, Registry.keys_setIp]
        exact h
      · rw [if_neg hip]
        exact h
  | none =>
      have hk : ("linkplay_" ++ info.uuid.pyStr) ∉ Registry.keys reg :=
        (Registry.lookup_eq_none_iff reg _).mp hl
      unfold Registry.keys at *
      rw [List.map_append]
      simp [List.nodup_append, h, List.disjoint_singleton]
      simp_all

theorem discoverPlayers_keys_nodup (ds : List (String × LPDeviceInfo))
    (reg : Registry) (h : (Registry.keys reg).Nodup) :
    (Registry.keys (discoverPlayers reg ds)).Nodup := by
  induction ds generalizing reg with
  | nil => exact h
  | cons hd tl ih =>
      exact ih _ (discoverStep_keys_nodup reg hd.1 hd.2 h)

theorem scanNetwork_foldl_eq_filterMap
    (parseJson : String → Option StatusDict)
    (probes : List (String × HttpResult)) (acc : List (String × LPDeviceInfo)) :
    probes.foldl
        (fun acc p =>
          match checkLinkplayDevice parseJson p.1 p.2 with
          | some info => acc ++ [(p.1, info)]
          | none => acc)
        acc =
      acc ++ probes.filterMap (fun p =>
        (checkLinkplayDevice parseJson p.1 p.2).map (fun i => (p.1, i))) := by
  induction probes generalizing acc with
  | nil => simp
  | cons hd tl ih =>
      cases h : checkLinkplayDevice parseJson hd.1 hd.2 <;>
        simp [List.filterMap_cons, h, ih]

/-! ## The claims -/

/-- C4: every probe outcome the spec classes as a failure — timeout,
connection error, non-200 status, or an unparseable 200 body — makes
the prober return the absent result `none` (the probe is a total
function, so no exception reaches the scanner), and the scan result is
exactly the per-address filter of successful probes: one failing
address is omitted while every other address of the batch is still
processed. -/
theorem C4_probe_failure_absent (parseJson : String → Option StatusDict)
    (probes : List (String × HttpResult)) (ip : String) (r : HttpResult)
    (hfail : probeFailure parseJson r) :
    checkLinkplayDevice parseJson ip r = none ∧
    scanNetwork parseJson probes =
      probes.filterMap (fun p =>
        (checkLinkplayDevice parseJson p.1 p.2).map (fun i => (p.1, i))) := by
  constructor
  · rcases hfail with h | h | ⟨c, b, rfl, hc⟩ | ⟨b, rfl, hb⟩
    · rw [h]
      rfl
    · rw [h]
      rfl
    · simp [checkLinkplayDevice, hc]
    · simp [checkLinkplayDevice, hb]
  · unfold scanNetwork
    simpa using scanNetwork_foldl_eq_filterMap parseJson probes []

theorem C4_probe_failure_absent_witness :
    checkLinkplayDevice parseDemo "10.0.0.5" .timeout = none ∧
    scanNetwork parseDemo
        [("10.0.0.1", .timeout), ("10.0.0.2", .response 200 "statusExBody"),
          ("10.0.0.3", .response 500 "x")] =
      [("10.0.0.1", .timeout), ("10.0.0.2", .response 200 "statusExBody"),
        ("10.0.0.3", .response 500 "x")].filterMap (fun p =>
        (checkLinkplayDevice parseDemo p.1 p.2).map (fun i => (p.1, i))) :=
  C4_probe_failure_absent parseDemo _ "10.0.0.5" .timeout (Or.inl rfl)

/-- C5: a command send that hits a network-level failure (timeout or
connection error) returns `none` — the model is a total function, so
nothing is raised — and a poll tick whose availability check gets that
no-response outcome marks the device unavailable and changes nothing
else, skipping the remaining poll steps whatever the status command
would have returned. -/
theorem C5_no_response_marks_unavailable
    (parseJson : String → Option StatusDict) (now : ℚ) (st : PlayerState)
    (r2 : HttpResult) :
    sendCommand parseJson .timeout = none ∧
    sendCommand parseJson .connError = none ∧
    poll parseJson now st .timeout r2 = { st with available := false } ∧
    poll parseJson now st .connError r2 = { st with available := false } :=
  ⟨rfl, rfl, rfl, rfl⟩

/-- C6: a command send answered with HTTP 200 and a body that does not
parse as JSON yields the fallback dict `{"response": body}` — a normal
result, not an error. -/
theorem C6_non_json_fallback (parseJson : String → Option StatusDict)
    (body : String) (hb : parseJson body = none) :
    sendCommand parseJson (.response 200 body) =
      some [("response", .str body)] := by
  simp [sendCommand, hb]

theorem C6_non_json_fallback_witness :
    sendCommand parseNone (.response 200 "OK") =
      some [("response", PyVal.str "OK")] :=
  C6_non_json_fallback parseNone "OK" rfl

/-- C10: every player command operation records the commanded value in
the snapshot unconditionally — the send outcome `r` (including a
timeout, for which the send returns `none` rather than raising) never
reaches the snapshot update, so the recorded state optimistically
reflects the command. -/
theorem C10_optimistic_snapshot (parseJson : String → Option StatusDict)
    (st : PlayerState) (r : HttpResult) (v : Int) (m : Bool) :
    volume_set parseJson st r v = { st with volume_level := v } ∧
    volume_mute parseJson st r m = { st with volume_muted := m } ∧
    play parseJson st r = { st with playback_state := .PLAYING } ∧
    pause parseJson st r = { st with playback_state := .PAUSED } ∧
    stop parseJson st r =
      { st with playback_state := .IDLE, current_media := none } ∧
    sendCommand parseJson .timeout = none :=
  ⟨rfl, rfl, rfl, rfl, rfl, rfl⟩

/-- C9 counterexample: the non-empty configured subnet
`"192.168.0.0/16"` (the default sentinel) is not scanned as such — the
scanner replaces it by the auto-derived local subnets, refuting the
claim that every non-empty specifier is scanned exactly. -/
theorem C9_counterexample :
    scanSubnets (some "192.168.0.0/16") ["10.0.0.0/24", "192.168.1.0/24"] =
      ["10.0.0.0/24", "192.168.1.0/24"] ∧
    "192.168.0.0/16" ≠ "" ∧
    scanSubnets (some "192.168.0.0/16") ["10.0.0.0/24", "192.168.1.0/24"] ≠
      ["192.168.0.0/16"] :=
  ⟨rfl, by decide, by decide⟩

/-- C9 amended: a non-empty configured subnet other than the default
sentinel `"192.168.0.0/16"` is scanned exactly; automatic derivation
from the local interface is used when the specifier is missing, empty,
or equal to that sentinel. -/
theorem C9_amended_subnet_selection (s : String) (auto : List String)
    (h1 : s ≠ "") (h2 : s ≠ "192.168.0.0/16") :
    scanSubnets (some s) auto = [s] ∧
    scanSubnets none auto = auto ∧
    scanSubnets (some "") auto = auto ∧
    scanSubnets (some "192.168.0.0/16") auto = auto := by
  refine ⟨?_, rfl, by simp [scanSubnets], by simp [scanSubnets]⟩
  show (if s = "" ∨ s = "192.168.0.0/16" then auto else [s]) = [s]
  rw [if_neg]
  push_neg
  exact ⟨h1, h2⟩

theorem C9_amended_subnet_selection_witness :
    scanSubnets (some "10.1.0.0/24") ["192.168.1.0/24"] = ["10.1.0.0/24"] ∧
    scanSubnets none ["192.168.1.0/24"] = ["192.168.1.0/24"] ∧
    scanSubnets (some "") ["192.168.1.0/24"] = ["192.168.1.0/24"] ∧
    scanSubnets (some "192.168.0.0/16") ["192.168.1.0/24"] =
      ["192.168.1.0/24"] :=
  C9_amended_subnet_selection "10.1.0.0/24" ["192.168.1.0/24"]
    (by decide) (by decide)

/-- C1: the registry is keyed by the identity UUID
(`player_id = "linkplay_" + uuid`), never by the address: a discovery
run preserves key uniqueness (each identity maps to at most one
record), and re-discovering a registered device under a possibly
changed address leaves the key list unchanged — no second record for
the identity — while the stored address field now holds the newly
discovered address, updated in place. -/
theorem C1_registry_identity_key (reg : Registry) (ip : String)
    (info : LPDeviceInfo) (p : LinkPlayPlayerRec)
    (ds : List (String × LPDeviceInfo))
    (hnodup : (Registry.keys reg).Nodup)
    (hfound : Registry.lookup reg ("linkplay_" ++ info.uuid.pyStr) = some p) :
    (Registry.keys (discoverPlayers reg ds)).Nodup ∧
    Registry.keys (discoverStep reg ip info) = Registry.keys reg ∧
    Registry.lookup (discoverStep reg ip info)
        ("linkplay_" ++ info.uuid.pyStr) =
      some { p with ip_address := ip } :=
  ⟨discoverPlayers_keys_nodup ds reg hnodup,
    (discoverStep_of_found reg ip info p hfound).1,
    (discoverStep_of_found reg ip info p hfound).2⟩

theorem C1_registry_identity_key_witness :
    (Registry.keys (discoverPlayers regOne [("10.0.0.9", infoNew)])).Nodup ∧
    Registry.keys (discoverStep regOne "10.0.0.9" infoNew) =
      Registry.keys regOne ∧
    Registry.lookup (discoverStep regOne "10.0.0.9" infoNew)
        ("linkplay_" ++ infoNew.uuid.pyStr) =
      some { recOld with ip_address := "10.0.0.9" } :=
  C1_registry_identity_key regOne "10.0.0.9" infoNew recOld
    [("10.0.0.9", infoNew)] (by decide) (by decide)

/-- C8 counterexample: re-discovering the registered device whose
probed identity now carries the refreshed name `"New Name"` and model
`"New Model"` leaves the stored record with its original name and
model — the code never refreshes them — refuting the claim that
re-discovery updates the stored name and model to the newly probed
values. -/
theorem C8_counterexample :
    (Registry.lookup (discoverStep regOne "10.0.0.9" infoNew)
        "linkplay_FF31F09E").map (fun p => (p.name, p.model)) =
      some ("Old Name", "Old Model") ∧
    infoNew.name = PyVal.str "New Name" ∧
    infoNew.model = PyVal.str "New Model" ∧
    ("Old Name", "Old Model") ≠ ("New Name", "New Model") :=
  ⟨by decide, rfl, rfl, by decide⟩

/-- C8 amended: the identity fields of a record are immutable once
established; re-discovery refreshes only the address.  For every
discovery step that finds an already-registered device, the stored
record keeps its player id, name, model and firmware and gets the
newly probed address. -/
theorem C8_amended_identity_immutable (reg : Registry) (ip : String)
    (info : LPDeviceInfo) (p : LinkPlayPlayerRec)
    (hfound : Registry.lookup reg ("linkplay_" ++ info.uuid.pyStr) = some p) :
    ∃ q, Registry.lookup (discoverStep reg ip info)
        ("linkplay_" ++ info.uuid.pyStr) = some q ∧
      q.ip_address = ip ∧ q.player_id = p.player_id ∧
      q.name = p.name ∧ q.model = p.model ∧ q.firmware = p.firmware :=
  ⟨{ p with ip_address := ip },
    (discoverStep_of_found reg ip info p hfound).2, rfl, rfl, rfl, rfl, rfl⟩

theorem C8_amended_identity_immutable_witness :
    ∃ q, Registry.lookup (discoverStep regOne "10.0.0.9" infoNew)
        ("linkplay_" ++ infoNew.uuid.pyStr) = some q ∧
      q.ip_address = "10.0.0.9" ∧ q.player_id = recOld.player_id ∧
      q.name = recOld.name ∧ q.model = recOld.model ∧
      q.firmware = recOld.firmware :=
  C8_amended_identity_immutable regOne "10.0.0.9" infoNew recOld (by decide)

/-- C2: after `play_media` stamps the play start time `t0` and records
Playing, a status tick reporting neither `"play"` nor `"pause"` keeps
the recorded state Playing when strictly less than 15 seconds have
elapsed since the play command and the recorded state is Playing, and
sets it to Idle when 15 seconds or more have elapsed. -/
theorem C2_grace_period (parseJson : String → Option StatusDict)
    (now t0 : ℚ) (st : PlayerState) (uri : String) (r1 r2 r3 : HttpResult)
    (d : StatusDict)
    (hs1 : d.get "status" (.str "stop") ≠ .str "play")
    (hs2 : d.get "status" (.str "stop") ≠ .str "pause") :
    ((play_media parseJson t0 st uri r1 r2 r3).play_start_time = t0 ∧
      (play_media parseJson t0 st uri r1 r2 r3).playback_state = .PLAYING) ∧
    (st.playback_state = .PLAYING → now - st.play_start_time < 15 →
      (updateFromStatus now st d).1.playback_state = .PLAYING) ∧
    (15 ≤ now - st.play_start_time →
      (updateFromStatus now st d).1.playback_state = .IDLE) := by
  refine ⟨⟨rfl, rfl⟩, ?_, ?_⟩
  · intro hplay hlt
    rw [updateFromStatus_fst_playback_state,
      applyPlayStatus_playback_of_other _ _ _ hs1 hs2]
    simp [hplay, hlt]
  · intro hge
    rw [updateFromStatus_fst_playback_state,
      applyPlayStatus_playback_of_other _ _ _ hs1 hs2]
    simp [not_lt.mpr hge]

theorem C2_grace_period_witness :
    (updateFromStatus 110 stPlaying
        [("status", PyVal.str "stop")]).1.playback_state = .PLAYING ∧
    (updateFromStatus 116 stPlaying
        [("status", PyVal.str "stop")]).1.playback_state = .IDLE :=
  ⟨(C2_grace_period parseNone 110 100 stPlaying "u" .timeout .timeout
      .timeout [("status", PyVal.str "stop")] (by decide) (by decide)).2.1
      rfl (by norm_num [stPlaying]),
    (C2_grace_period parseNone 116 100 stPlaying "u" .timeout .timeout
      .timeout [("status", PyVal.str "stop")] (by decide) (by decide)).2.2
      (by norm_num [stPlaying])⟩

/-- C7 counterexample: a poll tick whose availability check succeeds
while the status command returns no payload, taken 10 seconds after
the play command with the recorded state Playing (the grace-period
premises hold), still sets the playback state to Idle — the code
applies no grace period on this branch — refuting the claim that
Playing would be kept. -/
theorem C7_counterexample :
    sendCommand parseDemo (.response 200 "statusExBody") =
      some [("uuid", PyVal.str "FF31F09E")] ∧
    sendCommand parseDemo .timeout = none ∧
    stPlaying.playback_state = .PLAYING ∧
    (110 : ℚ) - stPlaying.play_start_time < 15 ∧
    (poll parseDemo 110 stPlaying
        (.response 200 "statusExBody") .timeout).available = true ∧
    (poll parseDemo 110 stPlaying
        (.response 200 "statusExBody") .timeout).playback_state = .IDLE :=
  ⟨by decide, rfl, rfl, by norm_num [stPlaying], by decide, by decide⟩

/-- C7 amended: on a poll tick where the availability check succeeds
but the status command returns no payload (no response, or an empty
dict), the playback state is set to Idle unconditionally — the
grace-period rule is not applied on this branch — and the device
remains Available. -/
theorem C7_amended_no_payload_idle (parseJson : String → Option StatusDict)
    (now : ℚ) (st : PlayerState) (r1 r2 : HttpResult) (d : StatusDict)
    (h1 : sendCommand parseJson r1 = some d) (hne : d.isEmpty = false)
    (h2 : sendCommand parseJson r2 = none ∨
      sendCommand parseJson r2 = some []) :
    poll parseJson now st r1 r2 =
      { st with available := true, playback_state := .IDLE } := by
  unfold poll
  rw [h1]
  simp only [hne, Bool.false_eq_true, if_false]
  rcases h2 with h2 | h2
  · rw [h2]
  · rw [h2]
    rfl

theorem C7_amended_no_payload_idle_witness :
    poll parseDemo 110 stPlaying (.response 200 "statusExBody") .timeout =
      { stPlaying with available := true, playback_state := .IDLE } :=
  C7_amended_no_payload_idle parseDemo 110 stPlaying
    (.response 200 "statusExBody") .timeout [("uuid", PyVal.str "FF31F09E")]
    (by decide) rfl (Or.inl rfl)

/-- Length of the materialised host list equals the host count. -/
theorem IPv4Network.hosts_length (n : IPv4Network) :
    n.hosts.length = n.hostCount := by
  unfold IPv4Network.hosts IPv4Network.hostCount
  by_cases h32 : n.plen = 32
  · simp [h32]
  · by_cases h31 : n.plen = 31
    · simp [h32, h31]
    · simp [h32, h31]

/-- C3: for every valid subnet, the candidate list has length exactly
the host count of the subnet when the subnet holds at most 1024
addresses (and no truncation warning is produced); when the subnet is
larger the list is exactly the first 1024 host addresses in canonical
host order — length exactly 1024 — and the truncation warning is
produced. -/
theorem C3_candidate_list (n : IPv4Network) (_hp : n.plen ≤ 32) :
    (n.numAddresses ≤ 1024 →
      (generateIpRange n).1.length = n.hostCount ∧
      (generateIpRange n).2 = false) ∧
    (1024 < n.numAddresses →
      (generateIpRange n).1.length = 1024 ∧
      (generateIpRange n).1 = n.hosts.take 1024 ∧
      (generateIpRange n).2 = true) := by
  constructor
  · intro hle
    have hn : ¬ (n.numAddresses > 1024) := not_lt.mpr hle
    unfold generateIpRange
    rw [if_neg hn]
    exact ⟨IPv4Network.hosts_length n, rfl⟩
  · intro hgt
    have h10 : 10 < 32 - n.plen := by
      by_contra hcon
      push_neg at hcon
      have hle : n.numAddresses ≤ 1024 := by
        unfold IPv4Network.numAddresses
        calc 2 ^ (32 - n.plen) ≤ 2 ^ 10 :=
              Nat.pow_le_pow_right (by norm_num) hcon
          _ = 1024 := by norm_num
      omega
    have h32 : n.plen ≠ 32 := by omega
    have h31 : n.plen ≠ 31 := by omega
    have hlen : n.hosts.length = n.numAddresses - 2 := by
      unfold IPv4Network.hosts
      simp [h32, h31]
    have hge : 1024 ≤ n.hosts.length := by
      rw [hlen]
      have h2k : 2 ^ 11 ≤ n.numAddresses := by
        unfold IPv4Network.numAddresses
        exact Nat.pow_le_pow_right (by norm_num) (by omega)
      have : (2048 : ℕ) = 2 ^ 11 := by norm_num
      omega
    unfold generateIpRange
    rw [if_pos hgt]
    refine ⟨?_, rfl, rfl⟩
    simp only [List.length_take]
    omega

theorem C3_candidate_list_witness :
    ((generateIpRange { netaddr := 0, plen := 24 }).1.length =
        IPv4Network.hostCount { netaddr := 0, plen := 24 } ∧
      (generateIpRange { netaddr := 0, plen := 24 }).2 = false) ∧
    ((generateIpRange { netaddr := 0, plen := 21 }).1.length = 1024 ∧
      (generateIpRange { netaddr := 0, plen := 21 }).1 =
        (IPv4Network.hosts { netaddr := 0, plen := 21 }).take 1024 ∧
      (generateIpRange { netaddr := 0, plen := 21 }).2 = true) :=
  ⟨(C3_candidate_list { netaddr := 0, plen := 24 } (by norm_num)).1
      (by norm_num [IPv4Network.numAddresses]),
    (C3_candidate_list { netaddr := 0, plen := 21 } (by norm_num)).2
      (by norm_num [IPv4Network.numAddresses])⟩

end LinkPlay
